import Mathlib

/-
Verification of the Centrifugo WebSocket connection manager
(packages/desktop/src-tauri/src/centrifugo.rs).

The session loop `run_websocket_loop` is embedded as a pure step function
over an explicit loop state.  Inbound websocket frames, stream events and
commands from the command channel become the `LoopInput` type; one
iteration of the `tokio::select!` loop becomes `step`; the whole loop
becomes `run`, which folds `step` over a list of inputs and stops at the
first halting step (the `return` statements of the Rust loop).  Emitted
`app.emit("centrifugo-event", ...)` calls become the `events` component of
a step's result, and attempted `write.send(...)` calls become the `sent`
component.  JSON and the serde-derived decoders for `CentrifugoResponse`
and `CentrifugoPush` are modelled explicitly: all fields of both structs
are `Option`s, unknown fields are ignored, and a present field with the
wrong type makes the whole decode fail, exactly as serde behaves.
-/

set_option maxHeartbeats 1000000

/-- JSON values, the serde_json data model restricted to integer numerals
(no claim depends on non-integer numbers). -/
inductive Json where
  | null : Json
  | bool (b : Bool) : Json
  | num (n : Int) : Json
  | str (s : String) : Json
  | arr (elems : List Json) : Json
  | obj (fields : List (String × Json)) : Json

/-- First value bound to key `k` in a JSON object's field list. -/
def lookupField (fs : List (String × Json)) (k : String) : Option Json :=
  match fs with
  | [] => none
  | (k', v) :: rest => if k' = k then some v else lookupField rest k

/-- The `ConnectionStatus` enum from centrifugo.rs lines 36-41. -/
inductive ConnectionStatus where
  | disconnected : ConnectionStatus
  | connecting : ConnectionStatus
  | connected : ConnectionStatus
  | error (msg : String) : ConnectionStatus
deriving DecidableEq

/-- The `CentrifugoError` struct (lines 89-94): `code` is a u32, `message` a string. -/
structure CentrifugoError where
  code : Nat
  message : String
deriving DecidableEq

/-- The `CentrifugoMethod` enum (lines 73-79). -/
inductive CentrifugoMethod where
  | connect (token : String) : CentrifugoMethod
  | subscribe (channel : String) : CentrifugoMethod
  | unsubscribe (channel : String) : CentrifugoMethod
deriving DecidableEq

/-- The `CentrifugoRequest` struct (lines 66-71): a numeric id wrapping a method. -/
structure CentrifugoRequest where
  id : Nat
  method : CentrifugoMethod
deriving DecidableEq

/-- The `CentrifugoResponse` struct (lines 81-87): every field is an `Option`. -/
structure CentrifugoResponse where
  id : Option Nat
  result : Option Json
  error : Option CentrifugoError

/-- The `CentrifugoPublication` struct (lines 102-105): the `data` field is required. -/
structure CentrifugoPublication where
  data : Json

/-- The `CentrifugoPush` struct (lines 96-100): both fields are `Option`s. -/
structure CentrifugoPush where
  channel : Option String
  pub : Option CentrifugoPublication

/-- The `CentrifugoEvent` enum (lines 54-63), the events emitted to the frontend. -/
inductive CentrifugoEvent where
  | connected : CentrifugoEvent
  | disconnected (reason : String) : CentrifugoEvent
  | error (error : String) : CentrifugoEvent
  | subscribed (channel_id : String) : CentrifugoEvent
  | subscriptionError (channel_id : String) (error : String) : CentrifugoEvent
  | publication (channel_id : String) (data : Json) : CentrifugoEvent

/-- serde decoding of a `u32`: an integer numeral in `[0, 2^32)`. -/
def decodeU32 : Json → Option Nat
  | Json.num n => if 0 ≤ n ∧ n < 4294967296 then some n.toNat else none
  | _ => none

/-- serde decoding of a `String`. -/
def decodeString : Json → Option String
  | Json.str s => some s
  | _ => none

/-- serde decoding of an `Option<T>` struct field: an absent or `null`
field is `None`; a present field must decode with `dec` or the whole
struct decode fails. -/
def decodeOptField {α : Type} (fs : List (String × Json)) (k : String)
    (dec : Json → Option α) : Option (Option α) :=
  match lookupField fs k with
  | none => some none
  | some Json.null => some none
  | some v => (dec v).map some

/-- serde decoding of `CentrifugoError`: an object with a required u32
`code` and a required string `message`; unknown fields ignored. -/
def decodeErrorObj : Json → Option CentrifugoError
  | Json.obj fs =>
    match lookupField fs "code", lookupField fs "message" with
    | some cv, some mv =>
      match decodeU32 cv, decodeString mv with
      | some c, some m => some ⟨c, m⟩
      | _, _ => none
    | _, _ => none
  | _ => none

/-- serde decoding of `CentrifugoResponse`.  All three fields are
`Option`s and unknown fields are ignored, so every JSON object whose
`id` and `error` fields (when present) are well-typed decodes
successfully; in particular any object lacking both decodes with
`id = none`. -/
def decodeResponse : Json → Option CentrifugoResponse
  | Json.obj fs =>
    match decodeOptField fs "id" decodeU32,
          decodeOptField fs "result" (fun v => some v),
          decodeOptField fs "error" decodeErrorObj with
    | some idv, some resv, some errv => some ⟨idv, resv, errv⟩
    | _, _, _ => none
  | _ => none

/-- serde decoding of `CentrifugoPublication`: object with required
`data` field of any JSON type. -/
def decodePublication : Json → Option CentrifugoPublication
  | Json.obj fs =>
    match lookupField fs "data" with
    | some d => some ⟨d⟩
    | none => none
  | _ => none

/-- serde decoding of `CentrifugoPush`: both fields optional. -/
def decodePush : Json → Option CentrifugoPush
  | Json.obj fs =>
    match decodeOptField fs "channel" decodeString,
          decodeOptField fs "pub" decodePublication with
    | some chv, some pubv => some ⟨chv, pubv⟩
    | _, _ => none
  | _ => none

/-- Model of `HashMap::get` on an association list whose keys are kept unique. -/
def mapGet {κ α : Type} [DecidableEq κ] (k : κ) : List (κ × α) → Option α
  | [] => none
  | (k', v) :: rest => if k' = k then some v else mapGet k rest

/-- Model of `HashMap::remove` (drops the binding of the key, if any). -/
def mapRemove {κ α : Type} [DecidableEq κ] (k : κ) : List (κ × α) → List (κ × α)
  | [] => []
  | p :: rest => if p.1 = k then mapRemove k rest else p :: mapRemove k rest

/-- Model of `HashMap::insert` (replaces any previous binding of the key). -/
def mapInsert {κ α : Type} [DecidableEq κ] (k : κ) (v : α) (m : List (κ × α)) :
    List (κ × α) :=
  (k, v) :: mapRemove k m

/-- The state owned by one iteration of `run_websocket_loop`:
`request_id`, `pending_subscribes` and `channel_to_id` are the loop's
locals (lines 190-192); `subscriptions` is the shared
`state.subscriptions` map; `status` is the shared `state.status` cell. -/
structure LoopState where
  requestId : Nat
  pendingSubscribes : List (Nat × (String × String))
  channelToId : List (String × String)
  subscriptions : List (String × String)
  status : ConnectionStatus

/-- One input to the `tokio::select!` loop: an arm of
`read.next()` or of `rx.recv()` (lines 197-321). -/
inductive LoopInput where
  | textFrame (j : Json) : LoopInput
  | closeFrame : LoopInput
  | streamEnd : LoopInput
  | streamErr (e : String) : LoopInput
  | otherFrame : LoopInput
  | cmdSubscribe (channel_id channel_name : String) : LoopInput
  | cmdUnsubscribe (channel_id : String) : LoopInput
  | cmdDisconnect : LoopInput
  | cmdChannelClosed : LoopInput
  | cmdConnect : LoopInput

/-- Result of one loop iteration: the successor state, the events emitted
via `app.emit`, the requests passed to `write.send` (attempted writes —
the loop discards their results), whether the iteration executed `return`,
and whether it called `write.close()`. -/
structure StepResult where
  state : LoopState
  events : List CentrifugoEvent
  sent : List CentrifugoRequest
  halt : Bool
  closedSocket : Bool

/-- The `Some(Ok(Message::Text(text)))` arm (lines 199-250): try
`CentrifugoResponse` first, `CentrifugoPush` second, else drop. -/
def handleText (s : LoopState) (j : Json) : StepResult :=
  match decodeResponse j with
  | some r =>
    match r.id with
    | some id =>
      if id = 1 then
        match r.error with
        | some err =>
          ⟨{ s with status := ConnectionStatus.error err.message },
            [CentrifugoEvent.error err.message], [], true, false⟩
        | none =>
          ⟨{ s with status := ConnectionStatus.connected },
            [CentrifugoEvent.connected], [], false, false⟩
      else
        match mapGet id s.pendingSubscribes with
        | some (cid, cname) =>
          match r.error with
          | some err =>
            ⟨{ s with pendingSubscribes := mapRemove id s.pendingSubscribes },
              [CentrifugoEvent.subscriptionError cid err.message], [], false, false⟩
          | none =>
            ⟨{ s with
                pendingSubscribes := mapRemove id s.pendingSubscribes,
                channelToId := mapInsert ("logs:" ++ cname) cid s.channelToId,
                subscriptions := mapInsert cid cname s.subscriptions },
              [CentrifugoEvent.subscribed cid], [], false, false⟩
        | none => ⟨s, [], [], false, false⟩
    | none => ⟨s, [], [], false, false⟩
  | none =>
    match decodePush j with
    | some p =>
      match p.channel, p.pub with
      | some c, some publication =>
        match mapGet c s.channelToId with
        | some cid =>
          ⟨s, [CentrifugoEvent.publication cid publication.data], [], false, false⟩
        | none => ⟨s, [], [], false, false⟩
      | _, _ => ⟨s, [], [], false, false⟩
    | none => ⟨s, [], [], false, false⟩

/-- One iteration of the `tokio::select!` loop (lines 194-323). -/
def step (s : LoopState) (i : LoopInput) : StepResult :=
  match i with
  | LoopInput.textFrame j => handleText s j
  | LoopInput.closeFrame =>
    ⟨{ s with status := ConnectionStatus.disconnected },
      [CentrifugoEvent.disconnected "Connection closed"], [], true, false⟩
  | LoopInput.streamEnd =>
    ⟨{ s with status := ConnectionStatus.disconnected },
      [CentrifugoEvent.disconnected "Connection closed"], [], true, false⟩
  | LoopInput.streamErr e =>
    ⟨{ s with status := ConnectionStatus.error e },
      [CentrifugoEvent.error e], [], true, false⟩
  | LoopInput.otherFrame => ⟨s, [], [], false, false⟩
  | LoopInput.cmdSubscribe cid cname =>
    ⟨{ s with
        pendingSubscribes := mapInsert s.requestId (cid, cname) s.pendingSubscribes,
        requestId := (s.requestId + 1) % 4294967296 },
      [], [⟨s.requestId, CentrifugoMethod.subscribe ("logs:" ++ cname)⟩], false, false⟩
  | LoopInput.cmdUnsubscribe cid =>
    match mapGet cid s.subscriptions with
    | some cname =>
      ⟨{ s with
          requestId := (s.requestId + 1) % 4294967296,
          channelToId := mapRemove ("logs:" ++ cname) s.channelToId,
          subscriptions := mapRemove cid s.subscriptions },
        [], [⟨s.requestId, CentrifugoMethod.unsubscribe ("logs:" ++ cname)⟩], false, false⟩
    | none =>
      ⟨{ s with subscriptions := mapRemove cid s.subscriptions }, [], [], false, false⟩
  | LoopInput.cmdDisconnect =>
    ⟨{ s with status := ConnectionStatus.disconnected },
      [CentrifugoEvent.disconnected "User disconnected"], [], true, true⟩
  | LoopInput.cmdChannelClosed =>
    ⟨{ s with status := ConnectionStatus.disconnected },
      [CentrifugoEvent.disconnected "User disconnected"], [], true, true⟩
  | LoopInput.cmdConnect => ⟨s, [], [], false, false⟩

/-- Cumulative result of running the loop over a list of inputs. -/
structure RunResult where
  state : LoopState
  events : List CentrifugoEvent
  sent : List CentrifugoRequest

/-- The loop itself: fold `step` over the inputs, stopping at the first
halting step; inputs after a halting step are never processed. -/
def run (s : LoopState) : List LoopInput → RunResult
  | [] => ⟨s, [], []⟩
  | i :: rest =>
    if (step s i).halt then ⟨(step s i).state, (step s i).events, (step s i).sent⟩
    else
      ⟨(run (step s i).state rest).state,
        (step s i).events ++ (run (step s i).state rest).events,
        (step s i).sent ++ (run (step s i).state rest).sent⟩

/-- Outcome of a fallible transport operation (`connect_async`,
`write.send`). -/
inductive IOResult where
  | ok : IOResult
  | err (e : String) : IOResult

/-- Observable outcome of the part of `run_websocket_loop` before the
loop (lines 157-192): final shared status, emitted events, attempted
writes, and whether the session reaches the select loop. -/
structure SessionStart where
  status : ConnectionStatus
  events : List CentrifugoEvent
  sent : List CentrifugoRequest
  entersLoop : Bool

/-- Lines 157-192 of `run_websocket_loop`.  The status starts as
`Connecting`, set by `connect_centrifugo` (line 136) before the task is
spawned.  On `connect_async` failure the status is set to `Error` and an
`Error` event is emitted; on failure to send the initial `Connect`
request only an `Error` event is emitted — the status write is absent in
that path, so the status stays `Connecting`. -/
def sessionStart (token : String) (connectRes sendRes : IOResult) : SessionStart :=
  match connectRes with
  | IOResult.err e =>
    ⟨ConnectionStatus.error e, [CentrifugoEvent.error ("Connection failed: " ++ e)],
      [], false⟩
  | IOResult.ok =>
    match sendRes with
    | IOResult.err e =>
      ⟨ConnectionStatus.connecting,
        [CentrifugoEvent.error ("Failed to send connect: " ++ e)],
        [⟨1, CentrifugoMethod.connect token⟩], false⟩
    | IOResult.ok =>
      ⟨ConnectionStatus.connecting, [], [⟨1, CentrifugoMethod.connect token⟩], true⟩

/-- Loop state on entry to the select loop (lines 190-192):
`request_id = 2`, empty pending and channel maps; `subs` is whatever the
shared `state.subscriptions` map holds at that moment. -/
def initLoopState (subs : List (String × String)) : LoopState :=
  ⟨2, [], [], subs, ConnectionStatus.connecting⟩

/-- All requests a session passes to `write.send`, in order: the implicit
connect request, then the loop's requests. -/
def sessionRequests (token : String) (subs : List (String × String))
    (inputs : List LoopInput) : List CentrifugoRequest :=
  (sessionStart token IOResult.ok IOResult.ok).sent ++ (run (initLoopState subs) inputs).sent

/-- Whether a status is the `Error` variant. -/
def statusIsErr : ConnectionStatus → Bool
  | ConnectionStatus.error _ => true
  | _ => false

/-- Whether an event is the `Connected` event. -/
def isConnectedEvt : CentrifugoEvent → Bool
  | CentrifugoEvent.connected => true
  | _ => false

/-- Whether an event is a `Publication` event. -/
def isPublicationEvt : CentrifugoEvent → Bool
  | CentrifugoEvent.publication _ _ => true
  | _ => false

/-- Whether a loop input is a text frame decoding as a response with
id 1 and no error — the connect acknowledgment. -/
def isConnectOk (i : LoopInput) : Bool :=
  match i with
  | LoopInput.textFrame j =>
    match decodeResponse j with
    | some r => r.id == some 1 && r.error.isNone
    | none => false
  | _ => false

/-- The two registry maps are mutual inverses modulo the fixed
`"logs:" ++ name` derivation: every entry of `channel_to_id` points to a
handle whose `subscriptions` entry derives that channel name, and every
`subscriptions` entry is pointed back to by `channel_to_id`. -/
def registryInverse (ct subs : List (String × String)) : Prop :=
  (∀ c h, mapGet c ct = some h →
    ∃ n, mapGet h subs = some n ∧ c = "logs:" ++ n) ∧
  (∀ h n, mapGet h subs = some n → mapGet ("logs:" ++ n) ct = some h)

/-- Freshness of a successful subscribe response: when the input is a
response that will register a pending subscribe `(cid, cname)`, neither
the handle `cid` nor the derived channel name is currently registered.
Any other input satisfies the condition trivially. -/
def subscribeFresh (s : LoopState) (i : LoopInput) : Prop :=
  match i with
  | LoopInput.textFrame j =>
    match decodeResponse j with
    | some r =>
      match r.id with
      | some id =>
        if id = 1 then True
        else
          match mapGet id s.pendingSubscribes with
          | some (cid, cname) =>
            match r.error with
            | some _ => True
            | none =>
              mapGet cid s.subscriptions = none ∧
                mapGet ("logs:" ++ cname) s.channelToId = none
          | none => True
      | none => True
    | none => True
  | _ => True

/-- A success response frame: an object with the given id and an empty
`result` object, as in the spec scenarios. -/
def respOkFrame (id : Nat) : Json :=
  Json.obj [("id", Json.num id), ("result", Json.obj [])]

/-- An error response frame with the given id, code and message. -/
def respErrFrame (id code : Nat) (msg : String) : Json :=
  Json.obj [("id", Json.num id),
    ("error", Json.obj [("code", Json.num code), ("message", Json.str msg)])]

/-- A push frame for a channel carrying a data publication. -/
def pushFrame (channel : String) (d : Json) : Json :=
  Json.obj [("channel", Json.str channel), ("pub", Json.obj [("data", d)])]

/-- Looking a key up in the empty map yields nothing. -/
theorem mapGet_nil {κ α : Type} [DecidableEq κ] (k : κ) :
    mapGet k ([] : List (κ × α)) = none := rfl

/-- Characterization of lookup after `mapRemove`. -/
theorem mapGet_mapRemove {κ α : Type} [DecidableEq κ] (k k' : κ) (m : List (κ × α)) :
    mapGet k' (mapRemove k m) = if k' = k then none else mapGet k' m := by
  induction m with
  | nil => simp [mapRemove, mapGet]
  | cons p rest ih =>
    by_cases hk : p.1 = k <;> by_cases h : p.1 = k' <;>
      simp_all [mapRemove, mapGet]

/-- Characterization of lookup after `mapInsert`. -/
theorem mapGet_mapInsert {κ α : Type} [DecidableEq κ] (k k' : κ) (v : α)
    (m : List (κ × α)) :
    mapGet k' (mapInsert k v m) = if k = k' then some v else mapGet k' m := by
  by_cases h : k = k'
  · simp [mapInsert, mapGet, h]
  · simp [mapInsert, mapGet, h, mapGet_mapRemove]
    intro hk
    exact absurd hk.symm h

/-- Removing an absent key leaves the map unchanged. -/
theorem mapRemove_of_none {κ α : Type} [DecidableEq κ] (k : κ) (m : List (κ × α))
    (h : mapGet k m = none) : mapRemove k m = m := by
  induction m with
  | nil => rfl
  | cons p rest ih =>
    by_cases hk : p.1 = k
    · simp [mapGet, hk] at h
    · simp only [mapGet, hk, if_false] at h
      simp [mapRemove, hk, ih h]

/-- The empty registry is trivially inverse-consistent. -/
theorem regInv_nil : registryInverse [] [] := by
  constructor
  · intro c h hc
    simp [mapGet] at hc
  · intro h n hn
    simp [mapGet] at hn

/-- Registering a fresh handle and a fresh channel name preserves
inverse-consistency of the registry. -/
theorem regInv_insert (ct subs : List (String × String)) (cid cname : String)
    (hinv : registryInverse ct subs)
    (h1 : mapGet cid subs = none)
    (h2 : mapGet ("logs:" ++ cname) ct = none) :
    registryInverse (mapInsert ("logs:" ++ cname) cid ct)
      (mapInsert cid cname subs) := by
  obtain ⟨d1, d2⟩ := hinv
  constructor
  · intro c h hc
    rw [mapGet_mapInsert] at hc
    by_cases he : "logs:" ++ cname = c
    · rw [if_pos he] at hc
      injection hc with hc
      refine ⟨cname, ?_, he.symm⟩
      rw [mapGet_mapInsert, if_pos hc]
    · rw [if_neg he] at hc
      obtain ⟨n, hn, hcn⟩ := d1 c h hc
      refine ⟨n, ?_, hcn⟩
      rw [mapGet_mapInsert]
      by_cases hh : cid = h
      · subst hh
        rw [hn] at h1
        cases h1
      · rw [if_neg hh]
        exact hn
  · intro h n hn
    rw [mapGet_mapInsert] at hn
    by_cases hh : cid = h
    · rw [if_pos hh] at hn
      injection hn with hn
      rw [hn, mapGet_mapInsert, if_pos rfl]
      exact congrArg some hh
    · rw [if_neg hh] at hn
      have hd := d2 h n hn
      rw [mapGet_mapInsert]
      by_cases he : "logs:" ++ cname = "logs:" ++ n
      · rw [← he] at hd
        rw [h2] at hd
        cases hd
      · rw [if_neg he]
        exact hd

/-- Removing a registered pair from both directions preserves
inverse-consistency of the registry. -/
theorem regInv_remove (ct subs : List (String × String)) (cid cname : String)
    (hinv : registryInverse ct subs)
    (hget : mapGet cid subs = some cname) :
    registryInverse (mapRemove ("logs:" ++ cname) ct) (mapRemove cid subs) := by
  obtain ⟨d1, d2⟩ := hinv
  constructor
  · intro c h hc
    rw [mapGet_mapRemove] at hc
    by_cases he : c = "logs:" ++ cname
    · rw [if_pos he] at hc
      cases hc
    · rw [if_neg he] at hc
      obtain ⟨n, hn, hcn⟩ := d1 c h hc
      refine ⟨n, ?_, hcn⟩
      rw [mapGet_mapRemove]
      by_cases hh : h = cid
      · subst hh
        rw [hget] at hn
        injection hn with hn
        rw [← hn] at hcn
        exact absurd hcn he
      · rw [if_neg hh]
        exact hn
  · intro h n hn
    rw [mapGet_mapRemove] at hn
    by_cases hh : h = cid
    · rw [if_pos hh] at hn
      cases hn
    · rw [if_neg hh] at hn
      have hct := d2 h n hn
      rw [mapGet_mapRemove]
      by_cases he : "logs:" ++ n = "logs:" ++ cname
      · have hcid := d2 cid cname hget
        rw [he] at hct
        rw [hct] at hcid
        injection hcid with hhc
        exact absurd hhc hh
      · rw [if_neg he]
        exact hct

/-- The text-frame handler never writes to the socket and never touches
the request-id counter. -/
theorem handleText_no_sent (s : LoopState) (j : Json) :
    (handleText s j).sent = [] ∧ (handleText s j).state.requestId = s.requestId := by
  unfold handleText
  repeat' split
  all_goals exact ⟨rfl, rfl⟩

/-- Every loop iteration either sends nothing and keeps the request-id
counter, or sends exactly one request carrying the current counter value
and bumps the counter by one (with u32 wrap-around). -/
theorem step_sent_char (s : LoopState) (i : LoopInput) :
    ((step s i).sent = [] ∧ (step s i).state.requestId = s.requestId) ∨
    (∃ m, (step s i).sent = [⟨s.requestId, m⟩] ∧
      (step s i).state.requestId = (s.requestId + 1) % 4294967296) := by
  cases i with
  | textFrame j => exact Or.inl (handleText_no_sent s j)
  | closeFrame => exact Or.inl ⟨rfl, rfl⟩
  | streamEnd => exact Or.inl ⟨rfl, rfl⟩
  | streamErr e => exact Or.inl ⟨rfl, rfl⟩
  | otherFrame => exact Or.inl ⟨rfl, rfl⟩
  | cmdSubscribe cid cname => exact Or.inr ⟨_, rfl, rfl⟩
  | cmdUnsubscribe cid =>
    simp only [step]
    rcases h : mapGet cid s.subscriptions with _ | cname
    · exact Or.inl ⟨rfl, rfl⟩
    · exact Or.inr ⟨_, rfl, rfl⟩
  | cmdDisconnect => exact Or.inl ⟨rfl, rfl⟩
  | cmdChannelClosed => exact Or.inl ⟨rfl, rfl⟩
  | cmdConnect => exact Or.inl ⟨rfl, rfl⟩

/-- If the text-frame handler halts, it has set the status to `Error`. -/
theorem handleText_halt_status (s : LoopState) (j : Json) :
    (handleText s j).halt = true →
    statusIsErr (handleText s j).state.status = true := by
  unfold handleText
  repeat' split
  all_goals intro h
  all_goals first
    | rfl
    | exact Bool.noConfusion h

/-- A halting loop iteration leaves the status `Disconnected` or `Error`. -/
theorem step_halt_status (s : LoopState) (i : LoopInput) :
    (step s i).halt = true →
    ((step s i).state.status = ConnectionStatus.disconnected ∨
      statusIsErr (step s i).state.status = true) := by
  cases i with
  | textFrame j => exact fun h => Or.inr (handleText_halt_status s j h)
  | closeFrame => exact fun _ => Or.inl rfl
  | streamEnd => exact fun _ => Or.inl rfl
  | streamErr e => exact fun _ => Or.inr rfl
  | otherFrame => exact fun h => Bool.noConfusion h
  | cmdSubscribe cid cname => exact fun h => Bool.noConfusion h
  | cmdUnsubscribe cid =>
    simp only [step]
    rcases h : mapGet cid s.subscriptions with _ | cname <;> simp only [h]
    all_goals exact fun h => Bool.noConfusion h
  | cmdDisconnect => exact fun _ => Or.inl rfl
  | cmdChannelClosed => exact fun _ => Or.inl rfl
  | cmdConnect => exact fun h => Bool.noConfusion h

/-- Once an iteration halts, the inputs after it are never processed:
the run is the same whatever follows the halting input. -/
theorem run_halt_stop (s : LoopState) (i : LoopInput) (rest : List LoopInput)
    (h : (step s i).halt = true) : run s (i :: rest) = run s [i] := by
  simp only [run, h, if_pos]

/-- A loop iteration emits the `Connected` event exactly when its input
is a response frame with id 1 and no error, and then exactly once. -/
theorem step_connected_count (s : LoopState) (i : LoopInput) :
    (step s i).events.countP isConnectedEvt = if isConnectOk i then 1 else 0 := by
  cases i with
  | textFrame j =>
    simp only [step]
    unfold handleText isConnectOk
    repeat' split
    all_goals simp_all [isConnectedEvt, List.countP_cons, List.countP_nil]
  | closeFrame => rfl
  | streamEnd => rfl
  | streamErr e => rfl
  | otherFrame => rfl
  | cmdSubscribe cid cname => rfl
  | cmdUnsubscribe cid =>
    simp only [step, isConnectOk]
    rcases h : mapGet cid s.subscriptions with _ | cname <;> rfl
  | cmdDisconnect => rfl
  | cmdChannelClosed => rfl
  | cmdConnect => rfl

/-- The status can become `Connected` only by processing the connect
acknowledgment (or by already being `Connected`). -/
theorem step_connected_status (s : LoopState) (i : LoopInput) :
    (step s i).state.status = ConnectionStatus.connected →
    isConnectOk i = true ∨ s.status = ConnectionStatus.connected := by
  cases i with
  | textFrame j =>
    simp only [step]
    unfold handleText isConnectOk
    repeat' split
    all_goals intro h
    all_goals first
      | exact Or.inr h
      | (left; simp_all)
  | closeFrame => exact fun h => ConnectionStatus.noConfusion h
  | streamEnd => exact fun h => ConnectionStatus.noConfusion h
  | streamErr e => exact fun h => ConnectionStatus.noConfusion h
  | otherFrame => exact fun h => Or.inr h
  | cmdSubscribe cid cname => exact fun h => Or.inr h
  | cmdUnsubscribe cid =>
    simp only [step]
    rcases hget : mapGet cid s.subscriptions with _ | cname
    all_goals exact fun h => Or.inr h
  | cmdDisconnect => exact fun h => ConnectionStatus.noConfusion h
  | cmdChannelClosed => exact fun h => ConnectionStatus.noConfusion h
  | cmdConnect => exact fun h => Or.inr h

/-- Over a whole run, the number of `Connected` events emitted is at most
the number of connect acknowledgments among the inputs. -/
theorem run_connected_le (inputs : List LoopInput) (s : LoopState) :
    (run s inputs).events.countP isConnectedEvt ≤
      inputs.countP isConnectOk := by
  induction inputs generalizing s with
  | nil => simp [run]
  | cons i rest ih =>
    have hstep := step_connected_count s i
    by_cases hh : (step s i).halt
    · simp only [run, hh, if_pos]
      rw [hstep, List.countP_cons]
      by_cases hc : isConnectOk i <;> simp [hc]
    · simp only [run, hh, if_neg, Bool.false_eq_true, not_false_iff]
      rw [List.countP_append, hstep, List.countP_cons]
      have := ih (step s i).state
      by_cases hc : isConnectOk i <;> simp [hc] <;> omega

/-- Request ids assigned inside the loop: starting from counter value
`s.requestId`, and as long as the counter cannot wrap (fewer inputs than
fit below 2^32), the sent requests carry strictly increasing ids, all in
`[s.requestId, final counter)`, the counter never decreases and grows by
at most one per input, and the first sent request carries exactly the
starting counter value. -/
theorem run_sent_spec (inputs : List LoopInput) (s : LoopState)
    (hb : s.requestId + inputs.length < 4294967296) :
    List.Pairwise (fun a b : CentrifugoRequest => a.id < b.id) (run s inputs).sent ∧
    (∀ r ∈ (run s inputs).sent,
      s.requestId ≤ r.id ∧ r.id < (run s inputs).state.requestId) ∧
    s.requestId ≤ (run s inputs).state.requestId ∧
    (run s inputs).state.requestId ≤ s.requestId + inputs.length ∧
    (∀ r, (run s inputs).sent.head? = some r → r.id = s.requestId) := by
  induction inputs generalizing s with
  | nil =>
    refine ⟨List.Pairwise.nil, ?_, Nat.le_refl _, ?_, ?_⟩
    · intro r hr
      cases hr
    · exact Nat.le_add_right _ _
    · intro r hr
      cases hr
  | cons i rest ih =>
    have hlen : 1 ≤ (i :: rest).length := Nat.succ_le_succ (Nat.zero_le _)
    have hmod : (s.requestId + 1) % 4294967296 = s.requestId + 1 := by
      apply Nat.mod_eq_of_lt
      have : s.requestId + 1 ≤ s.requestId + (i :: rest).length :=
        Nat.add_le_add_left hlen _
      omega
    rcases step_sent_char s i with ⟨hs0, hr0⟩ | ⟨m, hs1, hr1⟩
    · -- the step sends nothing and keeps the counter
      by_cases hh : (step s i).halt
      · simp only [run, hh, if_pos]
        rw [hs0, hr0]
        refine ⟨List.Pairwise.nil, ?_, Nat.le_refl _, ?_, ?_⟩
        · intro r hr
          cases hr
        · exact Nat.le_add_right _ _
        · intro r hr
          cases hr
      · simp only [run, hh, if_neg, Bool.false_eq_true, not_false_iff]
        have hb' : (step s i).state.requestId + rest.length < 4294967296 := by
          rw [hr0]
          simp only [List.length_cons] at hb
          omega
        obtain ⟨p1, p2, p3, p4, p5⟩ := ih (step s i).state hb'
        rw [hs0]
        simp only [List.nil_append]
        rw [hr0] at p2 p3 p4 p5
        refine ⟨p1, p2, p3, ?_, p5⟩
        simp only [List.length_cons]
        omega
    · -- the step sends one request with the current counter value
      by_cases hh : (step s i).halt
      · simp only [run, hh, if_pos]
        rw [hs1, hr1, hmod]
        refine ⟨List.pairwise_singleton _ _, ?_, Nat.le_succ _, ?_, ?_⟩
        · intro r hr
          rw [List.mem_singleton] at hr
          subst hr
          exact ⟨Nat.le_refl _, Nat.lt_succ_self _⟩
        · simp only [List.length_cons]
          omega
        · intro r hr
          rw [List.head?_singleton] at hr
          injection hr with hr
          subst hr
          rfl
      · simp only [run, hh, if_neg, Bool.false_eq_true, not_false_iff]
        have hb' : (step s i).state.requestId + rest.length < 4294967296 := by
          rw [hr1, hmod]
          simp only [List.length_cons] at hb
          omega
        obtain ⟨p1, p2, p3, p4, p5⟩ := ih (step s i).state hb'
        rw [hr1, hmod] at p2 p3 p4
        rw [hs1]
        constructor
        · rw [List.pairwise_append]
          refine ⟨List.pairwise_singleton _ _, p1, ?_⟩
          intro a ha b hbmem
          rw [List.mem_singleton] at ha
          subst ha
          have hlb := (p2 b hbmem).1
          show s.requestId < b.id
          omega
        constructor
        · intro r hr
          rw [List.mem_append, List.mem_singleton] at hr
          rcases hr with hr | hr
          · subst hr
            refine ⟨Nat.le_refl _, ?_⟩
            show s.requestId < (run (step s i).state rest).state.requestId
            omega
          · obtain ⟨h1, h2⟩ := p2 r hr
            exact ⟨by omega, h2⟩
        constructor
        · omega
        constructor
        · simp only [List.length_cons]
          omega
        · intro r hr
          simp only [List.singleton_append, List.head?_cons] at hr
          injection hr with hr
          subst hr
          rfl

/-- C2 (amended): for every loop iteration, if the two registry maps are
mutual inverses and any subscribe-success registration performed by this
iteration registers a handle and a channel name that are both fresh, then
the maps are mutual inverses afterwards.  In particular this holds after
each operation of any sequence of subscribe-success responses and
unsubscribe commands satisfying the freshness condition. -/
theorem c2_registry_inverse_preserved (s : LoopState) (i : LoopInput)
    (hinv : registryInverse s.channelToId s.subscriptions)
    (hfresh : subscribeFresh s i) :
    registryInverse (step s i).state.channelToId (step s i).state.subscriptions := by
  cases i with
  | textFrame j =>
    simp only [step]
    unfold handleText
    simp only [subscribeFresh] at hfresh
    repeat' split
    all_goals try exact hinv
    all_goals simp_all
    all_goals exact regInv_insert _ _ _ _ hinv hfresh.1 hfresh.2
  | closeFrame => exact hinv
  | streamEnd => exact hinv
  | streamErr e => exact hinv
  | otherFrame => exact hinv
  | cmdSubscribe cid cname => exact hinv
  | cmdUnsubscribe cid =>
    simp only [step]
    rcases hget : mapGet cid s.subscriptions with _ | cname
    · show registryInverse s.channelToId (mapRemove cid s.subscriptions)
      rw [mapRemove_of_none _ _ hget]
      exact hinv
    · exact regInv_remove _ _ _ _ hinv hget
  | cmdDisconnect => exact hinv
  | cmdChannelClosed => exact hinv
  | cmdConnect => exact hinv

/-- Witness for C2: a concrete successful subscribe registration from an
empty registry satisfies the freshness hypothesis and yields an
inverse-consistent registry. -/
theorem c2_registry_inverse_witness :
    registryInverse
      (step ⟨2, [(2, ("c1", "app"))], [], [], ConnectionStatus.connecting⟩
        (LoopInput.textFrame (respOkFrame 2))).state.channelToId
      (step ⟨2, [(2, ("c1", "app"))], [], [], ConnectionStatus.connecting⟩
        (LoopInput.textFrame (respOkFrame 2))).state.subscriptions :=
  c2_registry_inverse_preserved _ _ regInv_nil ⟨rfl, rfl⟩

/-- C2 counterexample: after two successful subscribes that reuse the
logical name "app" under handles "c1" and "c2", the handle map still
holds an entry for "c1" but the channel map for "logs:app" points to
"c2", so the two maps are not mutual inverses. -/
theorem c2_registry_inverse_cex :
    ¬ registryInverse
        (run (initLoopState [])
          [LoopInput.cmdSubscribe "c1" "app", LoopInput.textFrame (respOkFrame 2),
           LoopInput.cmdSubscribe "c2" "app",
           LoopInput.textFrame (respOkFrame 3)]).state.channelToId
        (run (initLoopState [])
          [LoopInput.cmdSubscribe "c1" "app", LoopInput.textFrame (respOkFrame 2),
           LoopInput.cmdSubscribe "c2" "app",
           LoopInput.textFrame (respOkFrame 3)]).state.subscriptions := by
  intro h
  have h2 := h.2 "c1" "app" rfl
  exact absurd h2 (by decide)

/-- C1 (code evaluated at the failing input): after subscribe("c1","app")
succeeds and "logs:app" is registered to "c1", the well-formed push
frame for "logs:app" produces no `Publication` event at all — the frame
decodes as a `CentrifugoResponse` with absent id (all response fields are
optional and unknown fields are ignored), so the push branch is never
reached even though `decodePush` accepts the frame. -/
theorem c1_push_swallowed_by_response_decoder :
    (run (initLoopState [])
      [LoopInput.cmdSubscribe "c1" "app", LoopInput.textFrame (respOkFrame 2),
       LoopInput.textFrame (pushFrame "logs:app" (Json.obj [("x", Json.num 1)]))]).events
      = [CentrifugoEvent.subscribed "c1"] ∧
    mapGet "logs:app"
      (run (initLoopState [])
        [LoopInput.cmdSubscribe "c1" "app", LoopInput.textFrame (respOkFrame 2),
         LoopInput.textFrame
           (pushFrame "logs:app" (Json.obj [("x", Json.num 1)]))]).state.channelToId
      = some "c1" ∧
    decodeResponse (pushFrame "logs:app" (Json.obj [("x", Json.num 1)])) =
      some ⟨none, none, none⟩ ∧
    decodePush (pushFrame "logs:app" (Json.obj [("x", Json.num 1)])) =
      some ⟨some "logs:app", some ⟨Json.obj [("x", Json.num 1)]⟩⟩ :=
  ⟨rfl, rfl, rfl, rfl⟩

/-- C3: within one session the requests passed to the socket carry
strictly increasing ids (hence no id is ever reused), the implicit
connect request sent at session start carries id 1 and is the first
request, every id assigned to a subscribe or unsubscribe request is at
least 2 (never 1), and the first loop-assigned id is exactly 2 — all
under the hypothesis that the u32 request-id counter cannot wrap. -/
theorem c3_request_ids (token : String) (subs : List (String × String))
    (inputs : List LoopInput) (hb : inputs.length < 4294967294) :
    List.Pairwise (fun a b : CentrifugoRequest => a.id < b.id)
      (sessionRequests token subs inputs) ∧
    (sessionRequests token subs inputs).head? =
      some ⟨1, CentrifugoMethod.connect token⟩ ∧
    (∀ r ∈ (run (initLoopState subs) inputs).sent, 2 ≤ r.id ∧ r.id ≠ 1) ∧
    (∀ r, (run (initLoopState subs) inputs).sent.head? = some r → r.id = 2) := by
  have hb' : (initLoopState subs).requestId + inputs.length < 4294967296 := by
    show 2 + inputs.length < 4294967296
    omega
  obtain ⟨p1, p2, p3, p4, p5⟩ := run_sent_spec inputs (initLoopState subs) hb'
  have hini : (initLoopState subs).requestId = 2 := rfl
  rw [hini] at p2 p3 p4 p5
  refine ⟨?_, rfl, ?_, p5⟩
  · show List.Pairwise _
      (⟨1, CentrifugoMethod.connect token⟩ :: (run (initLoopState subs) inputs).sent)
    rw [List.pairwise_cons]
    refine ⟨?_, p1⟩
    intro b hbmem
    have hlb := (p2 b hbmem).1
    show (1 : Nat) < b.id
    omega
  · intro r hr
    have hlb := (p2 r hr).1
    exact ⟨hlb, by omega⟩

/-- Witness for C3 at a concrete session: two subscribes after the
connect give the wire requests ids 1, 2, 3 in strictly increasing
order. -/
theorem c3_request_ids_witness :
    List.Pairwise (fun a b : CentrifugoRequest => a.id < b.id)
      (sessionRequests "tok" []
        [LoopInput.cmdSubscribe "c1" "app", LoopInput.cmdSubscribe "c2" "web"]) :=
  (c3_request_ids "tok" [] _ (by decide)).1

/-- C4: a loop iteration emits `Connected` exactly when it processes a
response with id 1 and no error, and then exactly once; the status can
become `Connected` only through that input; over a whole run the number
of `Connected` events is bounded by the number of connect
acknowledgments processed; the pre-loop part of the session (socket
handshake included) never emits `Connected`; and the spec scenario — the
server replies with a single success response of id 1 — emits the
`Connected` event exactly once. -/
theorem c4_connected_only_from_connect_ack (s : LoopState) (i : LoopInput)
    (inputs : List LoopInput) (token : String) (cr sr : IOResult) :
    ((step s i).events.countP isConnectedEvt = if isConnectOk i then 1 else 0) ∧
    ((step s i).state.status = ConnectionStatus.connected →
      isConnectOk i = true ∨ s.status = ConnectionStatus.connected) ∧
    ((run s inputs).events.countP isConnectedEvt ≤ inputs.countP isConnectOk) ∧
    ((sessionStart token cr sr).events.countP isConnectedEvt = 0) ∧
    ((run (initLoopState []) [LoopInput.textFrame (respOkFrame 1)]).events =
      [CentrifugoEvent.connected]) := by
  refine ⟨step_connected_count s i, step_connected_status s i,
    run_connected_le inputs s, ?_, rfl⟩
  cases cr with
  | ok => cases sr <;> rfl
  | err e => rfl

/-- Witness for C4: processing the connect acknowledgment makes the
status `Connected`, and the theorem identifies the input as the connect
acknowledgment. -/
theorem c4_connected_witness :
    isConnectOk (LoopInput.textFrame (respOkFrame 1)) = true ∨
      (initLoopState []).status = ConnectionStatus.connected :=
  (c4_connected_only_from_connect_ack (initLoopState [])
    (LoopInput.textFrame (respOkFrame 1)) [] "tok" IOResult.ok IOResult.ok).2.1 rfl

/-- C5 counterexample: when sending the initial Connect request fails,
the session emits an `Error` event and terminates without entering the
loop, but the shared status is still `Connecting` — it is not set to
`Error` as the claim requires for every transport error. -/
theorem c5_connect_send_failure_cex :
    (sessionStart "tok" IOResult.ok (IOResult.err "boom")).events =
      [CentrifugoEvent.error "Failed to send connect: boom"] ∧
    (sessionStart "tok" IOResult.ok (IOResult.err "boom")).entersLoop = false ∧
    (sessionStart "tok" IOResult.ok (IOResult.err "boom")).status =
      ConnectionStatus.connecting ∧
    statusIsErr (sessionStart "tok" IOResult.ok (IOResult.err "boom")).status = false :=
  ⟨rfl, rfl, rfl, rfl⟩

/-- C5 (amended): socket connect failure and read-stream errors emit an
`Error` event, set the shared status to `Error` and terminate; failure
to send the initial Connect request emits an `Error` event and
terminates but leaves the status `Connecting`; and the results of
subscribe/unsubscribe writes inside the loop are discarded, so a failed
write there surfaces no event and does not terminate the session. -/
theorem c5_transport_error_paths (e token cid cname : String) (s : LoopState)
    (sr : IOResult) :
    ((sessionStart token (IOResult.err e) sr).status = ConnectionStatus.error e ∧
      (sessionStart token (IOResult.err e) sr).events =
        [CentrifugoEvent.error ("Connection failed: " ++ e)] ∧
      (sessionStart token (IOResult.err e) sr).entersLoop = false) ∧
    ((sessionStart token IOResult.ok (IOResult.err e)).status =
        ConnectionStatus.connecting ∧
      (sessionStart token IOResult.ok (IOResult.err e)).events =
        [CentrifugoEvent.error ("Failed to send connect: " ++ e)] ∧
      (sessionStart token IOResult.ok (IOResult.err e)).entersLoop = false) ∧
    ((step s (LoopInput.streamErr e)).state.status = ConnectionStatus.error e ∧
      (step s (LoopInput.streamErr e)).events = [CentrifugoEvent.error e] ∧
      (step s (LoopInput.streamErr e)).halt = true) ∧
    ((step s (LoopInput.cmdSubscribe cid cname)).events = [] ∧
      (step s (LoopInput.cmdSubscribe cid cname)).halt = false) ∧
    ((step s (LoopInput.cmdUnsubscribe cid)).events = [] ∧
      (step s (LoopInput.cmdUnsubscribe cid)).halt = false) := by
  refine ⟨?_, ⟨rfl, rfl, rfl⟩, ⟨rfl, rfl, rfl⟩, ⟨rfl, rfl⟩, ?_⟩
  · cases sr <;> exact ⟨rfl, rfl, rfl⟩
  · simp only [step]
    rcases h : mapGet cid s.subscriptions with _ | cn
    · exact ⟨rfl, rfl⟩
    · exact ⟨rfl, rfl⟩

/-- C6 counterexample: the connect-send-failure path terminates the
session while the shared status is still `Connecting`, which is neither
`Disconnected` nor `Error`. -/
theorem c6_terminal_status_cex :
    (sessionStart "tok" IOResult.ok (IOResult.err "boom")).entersLoop = false ∧
    (sessionStart "tok" IOResult.ok (IOResult.err "boom")).status =
      ConnectionStatus.connecting ∧
    ConnectionStatus.connecting ≠ ConnectionStatus.disconnected ∧
    statusIsErr ConnectionStatus.connecting = false :=
  ⟨rfl, rfl, by decide, rfl⟩

/-- C6 (amended): every halting loop iteration leaves the shared status
exactly `Disconnected` or exactly `Error`, after a halting iteration no
further inputs are processed, and socket-connect failure also terminates
with status `Error`; the one exception to the claim is failure to send
the initial Connect request, which terminates with status still
`Connecting`. -/
theorem c6_terminal_status (s : LoopState) (i : LoopInput)
    (rest : List LoopInput) (token e : String) (sr : IOResult)
    (h : (step s i).halt = true) :
    ((step s i).state.status = ConnectionStatus.disconnected ∨
      statusIsErr (step s i).state.status = true) ∧
    run s (i :: rest) = run s [i] ∧
    ((sessionStart token (IOResult.err e) sr).entersLoop = false ∧
      statusIsErr (sessionStart token (IOResult.err e) sr).status = true) := by
  refine ⟨step_halt_status s i h, run_halt_stop s i rest h, ?_⟩
  cases sr <;> exact ⟨rfl, rfl⟩

/-- Witness for C6: the explicit disconnect command halts and leaves the
status `Disconnected`. -/
theorem c6_terminal_status_witness :
    (step (initLoopState []) LoopInput.cmdDisconnect).state.status =
        ConnectionStatus.disconnected ∨
      statusIsErr (step (initLoopState []) LoopInput.cmdDisconnect).state.status =
        true :=
  (c6_terminal_status (initLoopState []) LoopInput.cmdDisconnect [] "tok" "e"
    IOResult.ok rfl).1

/-- C7: a response whose id matches a pending subscribe for handle `cid`
emits `SubscriptionError{cid, message}` with the server's message and
registers nothing when it carries an error, and registers both mapping
directions and emits `Subscribed{cid}` when it carries none; in both
cases the session keeps running.  Any later well-formed push frame
(in particular one for the channel of a failed subscribe) produces no
event. -/
theorem c7_subscribe_response_resolution (s : LoopState) (j : Json)
    (r : CentrifugoResponse) (id : Nat) (cid cname : String)
    (hdec : decodeResponse j = some r) (hid : r.id = some id) (hne : id ≠ 1)
    (hpend : mapGet id s.pendingSubscribes = some (cid, cname)) :
    (∀ err, r.error = some err →
      (step s (LoopInput.textFrame j)).events =
          [CentrifugoEvent.subscriptionError cid err.message] ∧
        (step s (LoopInput.textFrame j)).state.channelToId = s.channelToId ∧
        (step s (LoopInput.textFrame j)).state.subscriptions = s.subscriptions ∧
        (step s (LoopInput.textFrame j)).halt = false) ∧
    (r.error = none →
      (step s (LoopInput.textFrame j)).events = [CentrifugoEvent.subscribed cid] ∧
        (step s (LoopInput.textFrame j)).state.channelToId =
          mapInsert ("logs:" ++ cname) cid s.channelToId ∧
        (step s (LoopInput.textFrame j)).state.subscriptions =
          mapInsert cid cname s.subscriptions ∧
        (step s (LoopInput.textFrame j)).halt = false) ∧
    (∀ (s' : LoopState) (c : String) (d : Json),
      (step s' (LoopInput.textFrame (pushFrame c d))).events = []) := by
  refine ⟨?_, ?_, ?_⟩
  · intro err herr
    show (handleText s j).events = _ ∧ (handleText s j).state.channelToId = _ ∧
      (handleText s j).state.subscriptions = _ ∧ (handleText s j).halt = _
    unfold handleText
    simp only [hdec, hid]
    rw [if_neg hne]
    rw [hpend, herr]
    try exact ⟨rfl, rfl, rfl, rfl⟩
  · intro herr
    show (handleText s j).events = _ ∧ (handleText s j).state.channelToId = _ ∧
      (handleText s j).state.subscriptions = _ ∧ (handleText s j).halt = _
    unfold handleText
    simp only [hdec, hid]
    rw [if_neg hne]
    rw [hpend, herr]
    try exact ⟨rfl, rfl, rfl, rfl⟩
  · intro s' c d
    have hdp : decodeResponse (pushFrame c d) =
        some ⟨none, none, none⟩ := rfl
    show (handleText s' (pushFrame c d)).events = []
    unfold handleText
    simp only [hdp]

/-- Witness for C7 at the spec scenario: a pending subscribe (id 2,
handle "c1") answered by the error response with code 105 and message
"permission denied" emits the `SubscriptionError` event, registers
nothing and does not halt. -/
theorem c7_subscribe_response_witness :
    (step ⟨2, [(2, ("c1", "app"))], [], [], ConnectionStatus.connecting⟩
        (LoopInput.textFrame (respErrFrame 2 105 "permission denied"))).events =
      [CentrifugoEvent.subscriptionError "c1" "permission denied"] ∧
    (step ⟨2, [(2, ("c1", "app"))], [], [], ConnectionStatus.connecting⟩
        (LoopInput.textFrame (respErrFrame 2 105 "permission denied"))).state.channelToId =
      [] ∧
    (step ⟨2, [(2, ("c1", "app"))], [], [], ConnectionStatus.connecting⟩
        (LoopInput.textFrame (respErrFrame 2 105 "permission denied"))).state.subscriptions =
      [] ∧
    (step ⟨2, [(2, ("c1", "app"))], [], [], ConnectionStatus.connecting⟩
        (LoopInput.textFrame (respErrFrame 2 105 "permission denied"))).halt = false :=
  (c7_subscribe_response_resolution
      ⟨2, [(2, ("c1", "app"))], [], [], ConnectionStatus.connecting⟩
      (respErrFrame 2 105 "permission denied")
      ⟨some 2, none, some ⟨105, "permission denied"⟩⟩ 2 "c1" "app"
      rfl rfl (by decide) rfl).1
    ⟨105, "permission denied"⟩ rfl

/-- C8 counterexample: when the command channel closes (all senders
dropped), the session emits `Disconnected` with reason
"User disconnected", not the claimed "Connection closed". -/
theorem c8_channel_closed_reason_cex :
    (step (initLoopState []) LoopInput.cmdChannelClosed).events =
      [CentrifugoEvent.disconnected "User disconnected"] ∧
    "User disconnected" ≠ "Connection closed" :=
  ⟨rfl, by decide⟩

/-- C8 (amended): the explicit Disconnect command and the command
channel closing behave identically — both close the socket, set status
`Disconnected`, emit `Disconnected{reason: "User disconnected"}` and
terminate; the reason "Connection closed" is used only for an inbound
close frame or end-of-stream. -/
theorem c8_disconnect_paths (s : LoopState) :
    step s LoopInput.cmdChannelClosed = step s LoopInput.cmdDisconnect ∧
    (step s LoopInput.cmdDisconnect).events =
      [CentrifugoEvent.disconnected "User disconnected"] ∧
    (step s LoopInput.cmdDisconnect).state.status = ConnectionStatus.disconnected ∧
    (step s LoopInput.cmdDisconnect).halt = true ∧
    (step s LoopInput.cmdDisconnect).closedSocket = true ∧
    (step s LoopInput.closeFrame).events =
      [CentrifugoEvent.disconnected "Connection closed"] ∧
    (step s LoopInput.streamEnd).events =
      [CentrifugoEvent.disconnected "Connection closed"] :=
  ⟨rfl, rfl, rfl, rfl, rfl, rfl, rfl⟩

/-- C9: unsubscribing a handle with no recorded channel name is a
complete no-op — no request is sent, no event emitted, the session keeps
running and the whole loop state (registry included) is unchanged; for a
known handle the unsubscribe request derived from the recorded channel
name is sent and, in the same step and without any server
acknowledgment, both mapping directions are removed. -/
theorem c9_unsubscribe_semantics (s : LoopState) (cid : String) :
    (mapGet cid s.subscriptions = none →
      step s (LoopInput.cmdUnsubscribe cid) = ⟨s, [], [], false, false⟩) ∧
    (∀ cname, mapGet cid s.subscriptions = some cname →
      (step s (LoopInput.cmdUnsubscribe cid)).sent =
          [⟨s.requestId, CentrifugoMethod.unsubscribe ("logs:" ++ cname)⟩] ∧
        (step s (LoopInput.cmdUnsubscribe cid)).events = [] ∧
        (step s (LoopInput.cmdUnsubscribe cid)).halt = false ∧
        (step s (LoopInput.cmdUnsubscribe cid)).state.channelToId =
          mapRemove ("logs:" ++ cname) s.channelToId ∧
        (step s (LoopInput.cmdUnsubscribe cid)).state.subscriptions =
          mapRemove cid s.subscriptions) := by
  constructor
  · intro h
    simp only [step]
    rw [h, mapRemove_of_none _ _ h]
  · intro cname h
    simp only [step]
    rw [h]
    try exact ⟨rfl, rfl, rfl, rfl, rfl⟩

/-- Witness for C9: unsubscribing the registered handle "c1" sends the
unsubscribe request for "logs:app" with the current request id and
empties both registry directions in the same step. -/
theorem c9_unsubscribe_witness :
    (step ⟨5, [], [("logs:app", "c1")], [("c1", "app")], ConnectionStatus.connected⟩
        (LoopInput.cmdUnsubscribe "c1")).sent =
      [⟨5, CentrifugoMethod.unsubscribe "logs:app"⟩] ∧
    (step ⟨5, [], [("logs:app", "c1")], [("c1", "app")], ConnectionStatus.connected⟩
        (LoopInput.cmdUnsubscribe "c1")).events = [] ∧
    (step ⟨5, [], [("logs:app", "c1")], [("c1", "app")], ConnectionStatus.connected⟩
        (LoopInput.cmdUnsubscribe "c1")).halt = false ∧
    (step ⟨5, [], [("logs:app", "c1")], [("c1", "app")], ConnectionStatus.connected⟩
        (LoopInput.cmdUnsubscribe "c1")).state.channelToId = [] ∧
    (step ⟨5, [], [("logs:app", "c1")], [("c1", "app")], ConnectionStatus.connected⟩
        (LoopInput.cmdUnsubscribe "c1")).state.subscriptions = [] :=
  (c9_unsubscribe_semantics _ "c1").2 "app" rfl

/-- C10 counterexample: the JSON object with a mistyped id field
`{"id":"x","channel":"logs:app","pub":{"data":1}}` fails to decode as a
`CentrifugoResponse`, falls through to the push branch, and — with
"logs:app" registered — emits a `Publication` event; so it is not true
that every JSON object is handled by the Response branch with no
event. -/
theorem c10_mistyped_id_reaches_push_cex :
    decodeResponse (Json.obj [("id", Json.str "x"), ("channel", Json.str "logs:app"),
        ("pub", Json.obj [("data", Json.num 1)])]) = none ∧
    (step ⟨2, [], [("logs:app", "c1")], [("c1", "app")], ConnectionStatus.connecting⟩
        (LoopInput.textFrame (Json.obj [("id", Json.str "x"),
          ("channel", Json.str "logs:app"),
          ("pub", Json.obj [("data", Json.num 1)])]))).events =
      [CentrifugoEvent.publication "c1" (Json.num 1)] :=
  ⟨rfl, rfl⟩

/-- C10 (amended): every text frame that decodes as a Response with an
absent id is consumed by the Response branch with no event, no status
change and no pending-request removal — the step is a complete no-op —
and every JSON object lacking both the id and the error field does
decode as such a Response (all Response fields are optional and unknown
fields are ignored); an object with a present but mistyped id or error
field instead fails Response decoding and can reach the Push branch. -/
theorem c10_idless_response_is_noop (s : LoopState) (j : Json)
    (r : CentrifugoResponse) (hdec : decodeResponse j = some r)
    (hid : r.id = none) :
    step s (LoopInput.textFrame j) = ⟨s, [], [], false, false⟩ ∧
    ∀ fs : List (String × Json), lookupField fs "id" = none →
      lookupField fs "error" = none →
      ∃ r', decodeResponse (Json.obj fs) = some r' ∧ r'.id = none := by
  constructor
  · show handleText s j = _
    unfold handleText
    simp only [hdec, hid]
  · intro fs h1 h2
    have hidf : decodeOptField fs "id" decodeU32 = some none := by
      unfold decodeOptField
      rw [h1]
    have herf : decodeOptField fs "error" decodeErrorObj = some none := by
      unfold decodeOptField
      rw [h2]
    have hres : ∃ v, decodeOptField fs "result" (fun v => some v) = some v := by
      unfold decodeOptField
      rcases lookupField fs "result" with _ | v
      · exact ⟨none, rfl⟩
      · cases v
        · exact ⟨none, rfl⟩
        all_goals exact ⟨_, rfl⟩
    obtain ⟨v, hv⟩ := hres
    refine ⟨⟨none, v, none⟩, ?_, rfl⟩
    show decodeResponse (Json.obj fs) = _
    simp only [decodeResponse, hidf, hv, herf]

/-- Witness for C10: a well-formed push frame decodes as an id-less
Response, and processing it is a complete no-op. -/
theorem c10_idless_response_witness :
    step (initLoopState []) (LoopInput.textFrame (pushFrame "logs:app" (Json.num 1))) =
      ⟨initLoopState [], [], [], false, false⟩ :=
  (c10_idless_response_is_noop (initLoopState [])
    (pushFrame "logs:app" (Json.num 1)) ⟨none, none, none⟩ rfl rfl).1
